import Mathlib

/-!
Shallow embedding of the resumable-upload client in `MainClient.py`
(`ProtocolV2`, `ResumableUploader`) for checking the specification's claims.

Conventions of the embedding:
* Python `bytes`/`str` payloads are byte sequences, modelled as `List Nat`
  (each element a byte value; a Python `str` is represented by its UTF-8
  byte sequence, which is the only view the wire codec ever takes of it).
* Machine integers are `Nat`; big-endian packing takes residues mod 256
  exactly as `struct.pack` lays out the fixed-width value.
* The network, the peer and the local file system are an explicit
  environment: each connection attempt is driven by a `Script` recording
  what the environment does at every step of that attempt (whether
  `connect` succeeds, whether the header write/drain raises, which offset
  the peer reports or that the read times out, whether the drains during
  the body send raise, and which 2-byte status arrives, if any).
* Exceptions are not propagated values: each fallible step of
  `upload()` is a branch in `attemptStep`, and "an exception listed at
  MainClient.py:262 was raised" is the `result = none` outcome of a step,
  which the retry handler then processes exactly as the `except` block does.
-/

/-- Big-endian fixed-width packing: the byte layout `struct.pack` produces
for a `width`-byte unsigned field (`"!I"` for `width = 4`, `"!Q"` for
`width = 8`): most significant byte first, each byte a residue mod 256. -/
def toBytesBE : Nat → Nat → List Nat
  | 0, _ => []
  | w + 1, n => toBytesBE w (n / 256) ++ [n % 256]

/-- Embedding of `ProtocolV2.pack_u64` (MainClient.py:58-60): `struct.pack("!Q", value)`. -/
def pack_u64 (n : Nat) : List Nat := toBytesBE 8 n

/-- The 4-byte length field of `struct.pack("!I", len(b))` (MainClient.py:56). -/
def pack_u32 (n : Nat) : List Nat := toBytesBE 4 n

/-- Embedding of `ProtocolV2.pack_string` (MainClient.py:53-56): the UTF-8 bytes of the
string (here: the byte list itself) prefixed with their 4-byte length. -/
def pack_string (b : List Nat) : List Nat := pack_u32 b.length ++ b

/-- Embedding of `ProtocolV2.build_header` (MainClient.py:67-75):
`pack_string(client_name) + pack_u64(file_size) + pack_string(filename) + pack_string(upload_id)`. -/
def build_header (client_name : List Nat) (filename : List Nat) (file_size : Nat)
    (upload_id : List Nat) : List Nat :=
  pack_string client_name ++ pack_u64 file_size ++ pack_string filename ++ pack_string upload_id

/-- Modelled from the spec (§4.1): `encodeU64(n)`, an 8-byte big-endian
unsigned integer, written positionally as the spec describes the wire
layout. Used only to compare the source codec against the spec's words. -/
def encodeU64 (n : Nat) : List Nat :=
  [n / 72057594037927936 % 256, n / 281474976710656 % 256, n / 1099511627776 % 256,
   n / 4294967296 % 256, n / 16777216 % 256, n / 65536 % 256, n / 256 % 256, n % 256]

/-- Modelled from the spec (§6): the `u32 len` field, 4-byte big-endian. -/
def encodeU32 (n : Nat) : List Nat :=
  [n / 16777216 % 256, n / 65536 % 256, n / 256 % 256, n % 256]

/-- Modelled from the spec (§4.1): `encodeString(s)` — UTF-8 bytes prefixed
with a 4-byte big-endian unsigned length. -/
def encodeString (b : List Nat) : List Nat := encodeU32 b.length ++ b

/-- Modelled from the spec (§4.1): `encodeHeader` as the spec's concatenation
`encodeString(client_name) || encodeU64(file_size) || encodeString(filename) || encodeString(upload_id)`. -/
def encodeHeader (client_name : List Nat) (filename : List Nat) (file_size : Nat)
    (upload_id : List Nat) : List Nat :=
  encodeString client_name ++ encodeU64 file_size ++ encodeString filename ++ encodeString upload_id

/-- The failure modes `ResumableUploader.connect` can hit while establishing
the connection (MainClient.py:141-150): the `asyncio.TimeoutError` of the
`wait_for`, `ConnectionRefusedError`, or any other exception. -/
inductive ConnectErr where
  | timeout
  | refused
  | other
deriving DecidableEq, Repr

/-- Embedding of `ResumableUploader.connect` (MainClient.py:124-150). The environment
outcome of `asyncio.open_connection` under `wait_for` is `env`
(`none` = the connection opened; `some e` = exception `e` was raised).
`conn0` is whether `self._conn` was already set. Returns the boolean
`connect` returns, paired with the resulting `self._conn` state;
returning a pair (rather than escaping exceptionally) is the embedding of
the `try/except` that converts every listed failure to `return False`. -/
def uploader_connect (env : Option ConnectErr) (conn0 : Bool) : Bool × Bool :=
  match env with
  | none => (true, true)
  | some ConnectErr.timeout => (false, conn0)
  | some ConnectErr.refused => (false, conn0)
  | some ConnectErr.other => (false, conn0)

/-- The chunk loop of `ResumableUploader._send_file_region`
(MainClient.py:183-198, the progress-bar branch and the plain branch run
the identical loop): while `sent_total < size`, read
`min(chunk_size, size - sent_total)` bytes at the current file position
(a read past end-of-file yields fewer, possibly zero, bytes), stop on an
empty read, otherwise write the chunk and advance. Returns
`(sent_total, bytes written to the transport in order)`. `pos` is the
current file position (the caller has already issued `f.seek(offset)`). -/
def sendLoop (cs : Nat) (file : List Nat) (pos size sent : Nat) : Nat × List Nat :=
  if _h : sent < size then
    match (file.drop pos).take (min cs (size - sent)) with
    | [] => (sent, [])
    | c :: cr =>
      let r := sendLoop cs file (pos + (c :: cr).length) size (sent + (c :: cr).length)
      (r.1, (c :: cr) ++ r.2)
  else (sent, [])
termination_by size - sent
decreasing_by simp; omega

/-- Embedding of `ResumableUploader._send_file_region` (MainClient.py:163-201) on a file
whose content at open time is `file`, after `f.seek(pos)`: the loop starts
with `sent_total = 0`. -/
def send_file_region (cs : Nat) (file : List Nat) (pos size : Nat) : Nat × List Nat :=
  sendLoop cs file pos size 0

/-- The configuration fields of `ClientConfig` (MainClient.py:25-49) that
the embedded control flow reads: `chunk_size` and `max_retries`
(`0` = unlimited). Timeouts and buffer watermarks only select which
exception is raised, which the `Script` records directly. -/
structure ClientConfig where
  chunk_size : Nat
  max_retries : Nat
deriving DecidableEq, Repr

/-- Environment behaviour for one iteration of the `while True` loop of
`upload` (MainClient.py:213-269):
* `connectOk` — result of `connect()` if it is called (`self._conn` empty);
* `headerOk` — `false` iff the header write/drain (MainClient.py:224-225)
  raises one of the exceptions caught at MainClient.py:262;
* `offsetReply` — `some off` iff the 8-byte offset read returns `off`;
  `none` iff it times out or the read fails (MainClient.py:227-230);
* `sendOk` — `false` iff a drain inside `_send_file_region` (or opening
  the file) raises (MainClient.py:236-242);
* `response` — `some (a, b)` iff `readexactly(2)` returns bytes `a, b`;
  `none` iff it times out or the stream ends (MainClient.py:248-251). -/
structure Script where
  connectOk : Bool
  headerOk : Bool
  offsetReply : Option Nat
  sendOk : Bool
  response : Option (Nat × Nat)
deriving DecidableEq, Repr

/-- Observable outcome of one loop iteration of `upload`:
* `result = some b` — the iteration executed `return b`;
* `result = none` — an exception reached the `except` handler
  (MainClient.py:262);
* `conn` — the `self._conn` state at that point (before the handler's
  `disconnect`);
* `connected` — whether `connect()` was called this iteration;
* `header` — the header bytes written this iteration, if any;
* `body` — the file bytes handed to the transport this iteration. -/
structure StepOut where
  result : Option Bool
  conn : Bool
  connected : Bool
  header : Option (List Nat)
  body : List Nat
deriving DecidableEq, Repr

/-- The tail of an `upload` iteration from the `readexactly(2)` status read
on (MainClient.py:248-260): `b"OK"` (bytes 79, 75) returns `True`;
`b"ER"` (69, 82) returns `False`; any other pair logs a warning and
returns `False`; a failed read is an exception for the handler. -/
def statusStep (s : Script) (connected : Bool) (hdr : List Nat) (body : List Nat) : StepOut :=
  match s.response with
  | none => ⟨none, true, connected, some hdr, body⟩
  | some (a, b) =>
    if a = 79 ∧ b = 75 then ⟨some true, true, connected, some hdr, body⟩
    else ⟨some false, true, connected, some hdr, body⟩

/-- One iteration of the `try` block of `upload` (MainClient.py:214-260),
for fixed `client`/`fname`/`uid`/`fileSize` computed before the loop
(MainClient.py:208-210) and the file content `file` seen if the file is
opened this iteration. `conn0` is `self._conn` at loop entry. Mirrors, in
order: the connect-if-needed step with its immediate `return False`
(MainClient.py:215-217), the header write (224-225), the offset read
(227-230), the `offset > file_size` check (232-233), the
`remaining > 0` split (235-246), the `sent != remaining` check (243-244),
and the status read (248-260). -/
def attemptStep (cfg : ClientConfig) (client fname uid : List Nat) (file : List Nat)
    (fileSize : Nat) (conn0 : Bool) (s : Script) : StepOut :=
  if conn0 = false ∧ s.connectOk = false then
    ⟨some false, false, true, none, []⟩
  else
    let connected := !conn0
    let hdr := build_header client fname fileSize uid
    if s.headerOk = false then ⟨none, true, connected, some hdr, []⟩
    else
      match s.offsetReply with
      | none => ⟨none, true, connected, some hdr, []⟩
      | some off =>
        if fileSize < off then ⟨none, true, connected, some hdr, []⟩
        else if fileSize - off = 0 then statusStep s connected hdr []
        else
          let r := send_file_region cfg.chunk_size file off (fileSize - off)
          if s.sendOk = false then ⟨none, true, connected, some hdr, r.2⟩
          else if r.1 ≠ fileSize - off then ⟨none, true, connected, some hdr, r.2⟩
          else statusStep s connected hdr r.2

/-- Trace of a whole `upload()` call:
* `result = some b` — `upload` returned `b`; `result = none` — the
  supplied script list ran out with the `while True` loop still running
  (the loop itself has no exit other than `return`);
* `conn` — the final `self._conn` state;
* `attempts` — the final value of the `attempt` counter;
* `connects` — how many times `connect()` was called;
* `headers` — every header written, in order;
* `bodies` — per executed iteration, the file bytes written. -/
structure RunResult where
  result : Option Bool
  conn : Bool
  attempts : Nat
  connects : Nat
  headers : List (List Nat)
  bodies : List (List Nat)
deriving DecidableEq, Repr

/-- The `while True` retry loop of `upload` (MainClient.py:212-269), one
`Script` per iteration. A `result = none` step runs the `except` handler
(MainClient.py:262-269): increment `attempt`, `disconnect()` (so the next
iteration starts with no connection), return `False` if
`max_retries != 0` and `attempt >= max_retries`, else sleep and loop. -/
def uploadLoop (cfg : ClientConfig) (client fname uid : List Nat) (file : List Nat)
    (fileSize : Nat) : List Script → Bool → Nat → RunResult
  | [], conn, attempt => ⟨none, conn, attempt, 0, [], []⟩
  | s :: rest, conn, attempt =>
    let o := attemptStep cfg client fname uid file fileSize conn s
    let c : Nat := if o.connected then 1 else 0
    match o.result with
    | some b => ⟨some b, o.conn, attempt, c, o.header.toList, [o.body]⟩
    | none =>
      if cfg.max_retries ≠ 0 ∧ cfg.max_retries ≤ attempt + 1 then
        ⟨some false, false, attempt + 1, c, o.header.toList, [o.body]⟩
      else
        let r := uploadLoop cfg client fname uid file fileSize rest false (attempt + 1)
        ⟨r.result, r.conn, r.attempts, c + r.connects, o.header.toList ++ r.headers,
         o.body :: r.bodies⟩

/-- Embedding of `ResumableUploader.upload` (MainClient.py:203-269): the existence check
(204-206) returns `False` before any network activity; otherwise
`filename`, `file_size`, `upload_id` are fixed (208-210), `attempt := 0`
(212) and the retry loop runs. `conn0` is `self._conn` on entry (it may
be live, e.g. after `ImageClient.__aenter__`). -/
def upload (cfg : ClientConfig) (client fname uid : List Nat) (file : List Nat)
    (fileSize : Nat) (fileExists : Bool) (scripts : List Script) (conn0 : Bool) : RunResult :=
  if fileExists = false then ⟨some false, conn0, 0, 0, [], []⟩
  else uploadLoop cfg client fname uid file fileSize scripts conn0 0

/-- Helper: with a positive chunk size and a file region that actually holds
`size - sent` bytes from position `pos` on, the chunk loop sends everything:
it ends with `sent_total = size` and writes exactly the bytes
`take (size - sent) (drop pos file)`. Strong induction on `size - sent`. -/
theorem sendLoop_exact (cs : Nat) (file : List Nat) (hcs : 0 < cs) :
    ∀ n size sent pos, size - sent = n → sent ≤ size →
      size - sent ≤ file.length - pos →
      sendLoop cs file pos size sent = (size, (file.drop pos).take (size - sent)) := by
  intro n
  induction n using Nat.strong_induction_on with
  | _ n ih =>
    intro size sent pos hn hss hrem
    rcases Nat.lt_or_ge sent size with hlt | hge
    · rw [sendLoop, dif_pos hlt]
      cases hchunk : (file.drop pos).take (min cs (size - sent)) with
      | nil =>
        exfalso
        have hlen := congrArg List.length hchunk
        simp [List.length_take, List.length_drop] at hlen
        omega
      | cons c cr =>
        have hlen := congrArg List.length hchunk
        simp [List.length_take, List.length_drop] at hlen
        have hL : cr.length + 1 = min cs (size - sent) := by omega
        have hrec := ih (size - (sent + (cr.length + 1))) (by omega) size
          (sent + (cr.length + 1)) (pos + (cr.length + 1)) rfl (by omega) (by
            simp [List.length_drop]
            omega)
        simp only [List.length_cons, hrec]
        simp only [Prod.mk.injEq, true_and]
        have hidx : size - (sent + (cr.length + 1)) = size - sent - (cr.length + 1) := by omega
        rw [hidx, ← List.drop_drop, ← hchunk, ← hL, ← List.take_add]
        congr 1
        omega
    · have hz : size - sent = 0 := by omega
      rw [sendLoop, dif_neg (by omega)]
      simp [hz]
      omega

/-- Helper: the chunk loop never reports more than `size` bytes sent —
every read is capped at `min cs (size - sent)`, so `sent_total` can never
jump past `size`. -/
theorem sendLoop_le (cs : Nat) (file : List Nat) :
    ∀ n size sent pos, size - sent = n → sent ≤ size →
      (sendLoop cs file pos size sent).1 ≤ size := by
  intro n
  induction n using Nat.strong_induction_on with
  | _ n ih =>
    intro size sent pos hn hss
    rcases Nat.lt_or_ge sent size with hlt | hge
    · rw [sendLoop, dif_pos hlt]
      cases hchunk : (file.drop pos).take (min cs (size - sent)) with
      | nil => simpa using hss
      | cons c cr =>
        have hlen := congrArg List.length hchunk
        simp [List.length_take, List.length_drop] at hlen
        have hrec := ih (size - (sent + (cr.length + 1))) (by omega) size
          (sent + (cr.length + 1)) (pos + (cr.length + 1)) rfl (by omega)
        simpa using hrec
    · rw [sendLoop, dif_neg (by omega)]
      simpa using hss

/-- Helper: `statusStep` forwards the body bytes unchanged. -/
theorem statusStep_body (s : Script) (cn : Bool) (hdr body : List Nat) :
    (statusStep s cn hdr body).body = body := by
  unfold statusStep
  rcases s.response with _ | ⟨a, b⟩
  · rfl
  · by_cases hxy : a = 79 ∧ b = 75 <;> simp [hxy]

/-- Helper: when the 2-byte status read yields bytes `(x, y)`, the step is a
terminal return — `True` exactly for `b"OK"`, the connection left in place. -/
theorem statusStep_some (s : Script) (cn : Bool) (hdr body : List Nat) (x y : Nat)
    (h : s.response = some (x, y)) :
    statusStep s cn hdr body = ⟨some (decide (x = 79 ∧ y = 75)), true, cn, some hdr, body⟩ := by
  unfold statusStep
  rw [h]
  by_cases hxy : x = 79 ∧ y = 75 <;> simp [hxy]

/-- Helper: on an attempt whose environment lets every network step through
(connection available or connectable, header accepted, a legal offset
`off ≤ fileSize` reported, drains fine) against a file whose content length
matches the declared size, `attemptStep` runs clean into the status read,
having written exactly the suffix `file.drop off`. -/
theorem attemptStep_clean (cfg : ClientConfig) (client fname uid file : List Nat)
    (fileSize : Nat) (conn : Bool) (s : Script) (off : Nat)
    (hc : conn = true ∨ s.connectOk = true) (hh : s.headerOk = true)
    (ho : s.offsetReply = some off) (hoff : off ≤ fileSize)
    (hlen : file.length = fileSize) (hcs : 0 < cfg.chunk_size) (hsend : s.sendOk = true) :
    attemptStep cfg client fname uid file fileSize conn s =
      statusStep s (!conn) (build_header client fname fileSize uid) (file.drop off) := by
  have hng : ¬(conn = false ∧ s.connectOk = false) := by
    rcases hc with h | h <;> simp [h]
  have hnlt : ¬ fileSize < off := by omega
  by_cases hz : fileSize - off = 0
  · have hoe : off = file.length := by omega
    have hdrop : file.drop off = [] := by
      rw [hoe, List.drop_length]
    simp [attemptStep, hng, hh, ho, hnlt, hz, hdrop]
  · have hr : send_file_region cfg.chunk_size file off (fileSize - off) =
        (fileSize - off, (file.drop off).take (fileSize - off)) := by
      unfold send_file_region
      exact sendLoop_exact cfg.chunk_size file hcs (fileSize - off) (fileSize - off) 0 off
        rfl (Nat.zero_le _) (by omega)
    have htake : (file.drop off).take (fileSize - off) = file.drop off := by
      apply List.take_of_length_le
      simp [List.length_drop, hlen]
    simp [attemptStep, hng, hh, ho, hnlt, hz, hr, htake, hsend]

/-- Helper: `statusStep` records exactly the header it was handed. -/
theorem statusStep_header (s : Script) (cn : Bool) (hdr body : List Nat) :
    (statusStep s cn hdr body).header = some hdr := by
  unfold statusStep
  rcases s.response with _ | ⟨a, b⟩
  · rfl
  · by_cases hxy : a = 79 ∧ b = 75 <;> simp [hxy]

/-- Helper: whatever the attempt does, any header it writes is the one
header built from the loop-invariant `client`, `fname`, `fileSize`, `uid`. -/
theorem attemptStep_header_eq (cfg : ClientConfig) (client fname uid file : List Nat)
    (fileSize : Nat) (conn : Bool) (s : Script) :
    (attemptStep cfg client fname uid file fileSize conn s).header = none ∨
    (attemptStep cfg client fname uid file fileSize conn s).header =
      some (build_header client fname fileSize uid) := by
  by_cases h1 : conn = false ∧ s.connectOk = false
  · left
    simp [attemptStep, h1]
  · right
    by_cases h2 : s.headerOk = false
    · simp [attemptStep, h1, h2]
    · rcases ho : s.offsetReply with _ | off
      · simp [attemptStep, h1, h2, ho]
      · by_cases h3 : fileSize < off
        · simp [attemptStep, h1, h2, ho, h3]
        · by_cases h4 : fileSize - off = 0
          · simp [attemptStep, h1, h2, ho, h3, h4, statusStep_header]
          · by_cases h5 : s.sendOk = false
            · simp [attemptStep, h1, h2, ho, h3, h4, h5]
            · by_cases h6 :
                  (send_file_region cfg.chunk_size file off (fileSize - off)).1 ≠ fileSize - off
              · simp [attemptStep, h1, h2, ho, h3, h4, h5, h6]
              · simp [attemptStep, h1, h2, ho, h3, h4, h5, h6, statusStep_header]

/-- Helper: a faulting attempt inside the retry budget makes the loop close
the connection, bump the attempt counter and continue with the next
script, the overall result being whatever the continuation decides. -/
theorem uploadLoop_fault_step (cfg : ClientConfig) (client fname uid file : List Nat)
    (fileSize : Nat) (s : Script) (rest : List Script) (conn : Bool) (a : Nat)
    (hf : (attemptStep cfg client fname uid file fileSize conn s).result = none)
    (hb : ¬(cfg.max_retries ≠ 0 ∧ cfg.max_retries ≤ a + 1)) :
    (uploadLoop cfg client fname uid file fileSize (s :: rest) conn a).result =
      (uploadLoop cfg client fname uid file fileSize rest false (a + 1)).result := by
  simp [uploadLoop, hf, hb]

/-- Helper: with a non-zero retry budget, if every scripted attempt faults
(regardless of the connection state it starts from) and enough scripts are
supplied, the loop stops exactly when the attempt counter reaches
`max_retries`: it returns `False`, with the connection closed by the
handler's `disconnect`. -/
theorem uploadLoop_exhaust (cfg : ClientConfig) (client fname uid file : List Nat)
    (fileSize : Nat) (hm : cfg.max_retries ≠ 0) :
    ∀ (scripts : List Script) (conn : Bool) (a : Nat), a < cfg.max_retries →
      cfg.max_retries ≤ a + scripts.length →
      (∀ s ∈ scripts, ∀ c : Bool,
        (attemptStep cfg client fname uid file fileSize c s).result = none) →
      (uploadLoop cfg client fname uid file fileSize scripts conn a).result = some false ∧
      (uploadLoop cfg client fname uid file fileSize scripts conn a).conn = false ∧
      (uploadLoop cfg client fname uid file fileSize scripts conn a).attempts =
        cfg.max_retries := by
  intro scripts
  induction scripts with
  | nil =>
    intro conn a ha hlen _
    simp at hlen
    omega
  | cons s rest ih =>
    intro conn a ha hlen hall
    have hs := hall s (List.mem_cons_self s rest) conn
    by_cases hb : cfg.max_retries ≤ a + 1
    · simp [uploadLoop, hs, hm, hb]
      omega
    · have hrec := ih false (a + 1) (by omega) (by simp at hlen ⊢; omega)
        (fun t ht c => hall t (List.mem_cons_of_mem s ht) c)
      simp [uploadLoop, hs, hm, hb]
      exact hrec

/-- Helper: with `max_retries = 0` (unlimited), a run of all-faulting
attempts never returns: however many scripts are supplied, the loop is
still running when they run out. -/
theorem uploadLoop_unlimited (cfg : ClientConfig) (client fname uid file : List Nat)
    (fileSize : Nat) (hm : cfg.max_retries = 0) :
    ∀ (scripts : List Script) (conn : Bool) (a : Nat),
      (∀ s ∈ scripts, ∀ c : Bool,
        (attemptStep cfg client fname uid file fileSize c s).result = none) →
      (uploadLoop cfg client fname uid file fileSize scripts conn a).result = none := by
  intro scripts
  induction scripts with
  | nil =>
    intro conn a _
    simp [uploadLoop]
  | cons s rest ih =>
    intro conn a hall
    have hs := hall s (List.mem_cons_self s rest) conn
    have hrec := ih false (a + 1) (fun t ht c => hall t (List.mem_cons_of_mem s ht) c)
    simp [uploadLoop, hs, hm]
    exact hrec

/-- Helper: every header the loop ever writes — across all reconnects — is
the single header built from the `fileSize` and `uid` fixed before the
loop started. -/
theorem uploadLoop_headers (cfg : ClientConfig) (client fname uid file : List Nat)
    (fileSize : Nat) :
    ∀ (scripts : List Script) (conn : Bool) (a : Nat) (h : List Nat),
      h ∈ (uploadLoop cfg client fname uid file fileSize scripts conn a).headers →
      h = build_header client fname fileSize uid := by
  intro scripts
  induction scripts with
  | nil =>
    intro conn a h hh
    simp [uploadLoop] at hh
  | cons s rest ih =>
    intro conn a h hh
    have hhd := attemptStep_header_eq cfg client fname uid file fileSize conn s
    rcases hres : (attemptStep cfg client fname uid file fileSize conn s).result with _ | b
    · by_cases hb : cfg.max_retries ≠ 0 ∧ cfg.max_retries ≤ a + 1
      · simp [uploadLoop, hres, hb] at hh
        rcases hhd with hhd | hhd
        · simp [hhd] at hh
        · simp [hhd] at hh
          exact hh.symm
      · simp [uploadLoop, hres, hb] at hh
        rcases hh with hh | hh
        · rcases hhd with hhd | hhd
          · simp [hhd] at hh
          · simp [hhd] at hh
            exact hh.symm
        · exact ih false (a + 1) h hh
    · simp [uploadLoop, hres] at hh
      rcases hhd with hhd | hhd
      · simp [hhd] at hh
      · simp [hhd] at hh
        exact hh.symm

/-- C7: for all inputs, the encoded transfer header equals
`encodeString(client_name) || encodeU64(file_size) || encodeString(filename) || encodeString(upload_id)`,
where `encodeString` is the UTF-8 payload prefixed with its 4-byte
big-endian length and `encodeU64` is the 8-byte big-endian unsigned
integer: the source codec `build_header`/`pack_string`/`pack_u64`
coincides with the spec's positional byte layout. -/
theorem header_wire_format (client_name filename upload_id : List Nat) (file_size : Nat) :
    build_header client_name filename file_size upload_id =
      encodeHeader client_name filename file_size upload_id := by
  have h64 : ∀ m, pack_u64 m = encodeU64 m := by
    intro m
    simp [pack_u64, toBytesBE, encodeU64, Nat.div_div_eq_div_mul]
  have h32 : ∀ m, pack_u32 m = encodeU32 m := by
    intro m
    simp [pack_u32, toBytesBE, encodeU32, Nat.div_div_eq_div_mul]
  simp [build_header, encodeHeader, pack_string, encodeString, h64, h32]

/-- C9: for every file content and requested size, the transfer engine's
returned sent-byte count satisfies `0 ≤ sent ≤ size` — each chunk read is
capped at `min chunk_size (size - sent_total)`, so the engine never
reports more than the requested byte count. -/
theorem send_file_region_bounded (cs : Nat) (file : List Nat) (pos size : Nat) :
    0 ≤ (send_file_region cs file pos size).1 ∧
    (send_file_region cs file pos size).1 ≤ size := by
  refine ⟨Nat.zero_le _, ?_⟩
  unfold send_file_region
  exact sendLoop_le cs file size size 0 pos rfl (Nat.zero_le _)

/-- C10: `connect()` is total at its interface: every failure mode of
connection establishment (timeout, refusal, any other exception) is caught
internally and mapped to a `False` return — in the embedding, a value of
`uploader_connect`, never an escaping exception — and the `self._conn`
field becomes live exactly on the success path, staying what it was on
every failure path. -/
theorem connect_total_interface (env : Option ConnectErr) (conn0 : Bool) :
    (uploader_connect env conn0).1 = decide (env = none) ∧
    (uploader_connect env conn0).2 = (if env = none then true else conn0) := by
  rcases env with _ | e
  · simp [uploader_connect]
  · cases e <;> simp [uploader_connect]

/-- C1 counterexample: the claim says a failed connection establishment is
a retryable fault (close, wait, reconnect). Concretely: retry budget 3,
first attempt's `connect()` fails, second scripted attempt would succeed
outright (offset = file size, status `b"OK"`). Were connect failure
retried, the run would reach that second attempt and succeed; instead
`upload()` returns `False` at once — one `connect()` call, attempt
counter still 0, no header ever sent. -/
theorem connect_failure_no_retry_cex :
    upload ⟨4194304, 3⟩ [] [] [] [] 0 true
      [⟨false, true, some 0, true, some (79, 75)⟩, ⟨true, true, some 0, true, some (79, 75)⟩]
      false =
      ⟨some false, false, 0, 1, [], [[]]⟩ := by
  decide

/-- C1 amended: a connection-establishment failure is terminal, not
retryable — when `connect()` returns `False`, `upload()` immediately
returns a failed outcome (MainClient.py:217) with exactly one connection
attempt, the attempt counter untouched and no header written, regardless
of the remaining retry budget or what later attempts would have done. -/
theorem connect_failure_terminal (cfg : ClientConfig) (client fname uid file : List Nat)
    (fileSize : Nat) (s : Script) (rest : List Script) (h : s.connectOk = false) :
    upload cfg client fname uid file fileSize true (s :: rest) false =
      ⟨some false, false, 0, 1, [], [[]]⟩ := by
  simp [upload, uploadLoop, attemptStep, h]

/-- C1 amended, witnessed at a concrete run: one failing-connect script,
empty continuation. -/
theorem connect_failure_terminal_witness :
    upload ⟨1, 0⟩ [] [] [] [] 0 true [⟨false, true, none, true, none⟩] false =
      ⟨some false, false, 0, 1, [], [[]]⟩ :=
  connect_failure_terminal ⟨1, 0⟩ [] [] [] [] 0 ⟨false, true, none, true, none⟩ [] rfl

/-- C2: when the peer reports resume offset `k ≤ file_size` and the
transport accepts all writes, the attempt seeks the source file to `k`
and sends exactly `file_size - k` bytes, and those bytes are the source
file's bytes in the range `[k, file_size)`. -/
theorem resume_sends_exact_suffix (cfg : ClientConfig) (client fname uid file : List Nat)
    (fileSize k : Nat) (s : Script) (conn : Bool)
    (hcs : 0 < cfg.chunk_size) (hlen : file.length = fileSize) (hk : k ≤ fileSize)
    (hc : conn = true ∨ s.connectOk = true) (hh : s.headerOk = true)
    (ho : s.offsetReply = some k) (hsend : s.sendOk = true) :
    (attemptStep cfg client fname uid file fileSize conn s).body = file.drop k ∧
    (attemptStep cfg client fname uid file fileSize conn s).body.length = fileSize - k := by
  have hclean := attemptStep_clean cfg client fname uid file fileSize conn s k
    hc hh ho hk hlen hcs hsend
  rw [hclean, statusStep_body]
  exact ⟨rfl, by simp [List.length_drop, hlen]⟩

/-- C2 witnessed: file `[7, 8, 9]`, declared size 3, resume offset 1 — the
attempt writes exactly `[8, 9]`. -/
theorem resume_sends_exact_suffix_witness :
    (attemptStep ⟨1, 0⟩ [] [] [] [7, 8, 9] 3 false
        ⟨true, true, some 1, true, some (79, 75)⟩).body = [8, 9] ∧
    (attemptStep ⟨1, 0⟩ [] [] [] [7, 8, 9] 3 false
        ⟨true, true, some 1, true, some (79, 75)⟩).body.length = 3 - 1 := by
  have h := resume_sends_exact_suffix ⟨1, 0⟩ [] [] [] [7, 8, 9] 3 1
    ⟨true, true, some 1, true, some (79, 75)⟩ false (by decide) (by decide) (by decide)
    (Or.inr rfl) rfl rfl rfl
  simpa using h

/-- C3: an attempt in which the server reports an offset strictly greater
than `file_size` never returns from `upload()` — it raises, the handler
closes the connection, and the loop re-enters with the next attempt (the
run's result is whatever the retry continuation decides, given the budget
allows it), neither a success nor an immediate hard failure. -/
theorem offset_overflow_faults_and_retries (cfg : ClientConfig)
    (client fname uid file : List Nat) (fileSize : Nat) (s : Script) (rest : List Script)
    (conn : Bool) (a off : Nat)
    (hc : conn = true ∨ s.connectOk = true) (hh : s.headerOk = true)
    (ho : s.offsetReply = some off) (hoff : fileSize < off)
    (hb : ¬(cfg.max_retries ≠ 0 ∧ cfg.max_retries ≤ a + 1)) :
    (attemptStep cfg client fname uid file fileSize conn s).result = none ∧
    (uploadLoop cfg client fname uid file fileSize (s :: rest) conn a).result =
      (uploadLoop cfg client fname uid file fileSize rest false (a + 1)).result := by
  have hng : ¬(conn = false ∧ s.connectOk = false) := by
    rcases hc with h | h <;> simp [h]
  have hstep : (attemptStep cfg client fname uid file fileSize conn s).result = none := by
    simp [attemptStep, hng, hh, ho, hoff]
  exact ⟨hstep, uploadLoop_fault_step cfg client fname uid file fileSize s rest conn a hstep hb⟩

/-- C3 witnessed: declared size 3, peer reports offset 5, unlimited budget. -/
theorem offset_overflow_faults_and_retries_witness :
    (attemptStep ⟨1, 0⟩ [] [] [] [] 3 false ⟨true, true, some 5, true, none⟩).result = none ∧
    (uploadLoop ⟨1, 0⟩ [] [] [] [] 3 [⟨true, true, some 5, true, none⟩] false 0).result =
      (uploadLoop ⟨1, 0⟩ [] [] [] [] 3 [] false 1).result :=
  offset_overflow_faults_and_retries ⟨1, 0⟩ [] [] [] [] 3 ⟨true, true, some 5, true, none⟩
    [] false 0 5 (Or.inr rfl) rfl rfl (by decide) (by decide)

/-- C5: an attempt whose transfer engine reports a sent-byte count that
differs from the requested remaining count raises (MainClient.py:243-244),
so the handler disconnects and the loop re-enters, budget permitting; a
partial send is never a successful outcome of the attempt. -/
theorem size_mismatch_faults_and_retries (cfg : ClientConfig)
    (client fname uid file : List Nat) (fileSize : Nat) (s : Script) (rest : List Script)
    (conn : Bool) (a off : Nat)
    (hc : conn = true ∨ s.connectOk = true) (hh : s.headerOk = true)
    (ho : s.offsetReply = some off) (hoff : off ≤ fileSize) (hrem : 0 < fileSize - off)
    (hsend : s.sendOk = true)
    (hmis : (send_file_region cfg.chunk_size file off (fileSize - off)).1 ≠ fileSize - off)
    (hb : ¬(cfg.max_retries ≠ 0 ∧ cfg.max_retries ≤ a + 1)) :
    (attemptStep cfg client fname uid file fileSize conn s).result = none ∧
    (uploadLoop cfg client fname uid file fileSize (s :: rest) conn a).result =
      (uploadLoop cfg client fname uid file fileSize rest false (a + 1)).result := by
  have hng : ¬(conn = false ∧ s.connectOk = false) := by
    rcases hc with h | h <;> simp [h]
  have hnlt : ¬ fileSize < off := by omega
  have hnz : ¬ (fileSize - off = 0) := by omega
  have hstep : (attemptStep cfg client fname uid file fileSize conn s).result = none := by
    simp [attemptStep, hng, hh, ho, hnlt, hnz, hsend, hmis]
  exact ⟨hstep, uploadLoop_fault_step cfg client fname uid file fileSize s rest conn a hstep hb⟩

/-- C5 witnessed: declared size 1 but the file is empty at open time, so
the engine reports 0 of 1 requested bytes — a fault, not a success. -/
theorem size_mismatch_faults_and_retries_witness :
    (attemptStep ⟨1, 0⟩ [] [] [] [] 1 false
        ⟨true, true, some 0, true, some (79, 75)⟩).result = none ∧
    (uploadLoop ⟨1, 0⟩ [] [] [] [] 1 [⟨true, true, some 0, true, some (79, 75)⟩] false 0).result =
      (uploadLoop ⟨1, 0⟩ [] [] [] [] 1 [] false 1).result :=
  size_mismatch_faults_and_retries ⟨1, 0⟩ [] [] [] [] 1
    ⟨true, true, some 0, true, some (79, 75)⟩ [] false 0 0 (Or.inr rfl) rfl rfl
    (by decide) (by decide) rfl (by simp [send_file_region, sendLoop]) (by decide)

/-- C4: a run whose first attempt is answered `b"ER"` (bytes 69, 82)
returns a failed outcome immediately: result `False`, exactly one
`connect()` call observed, the attempt counter still 0 — server rejection
never reaches the retry machinery, whatever scripts follow. -/
theorem server_rejection_terminal (cfg : ClientConfig) (client fname uid file : List Nat)
    (fileSize : Nat) (s : Script) (rest : List Script) (off : Nat)
    (hck : s.connectOk = true) (hh : s.headerOk = true) (ho : s.offsetReply = some off)
    (hoff : off ≤ fileSize) (hlen : file.length = fileSize) (hcs : 0 < cfg.chunk_size)
    (hsend : s.sendOk = true) (hresp : s.response = some (69, 82)) :
    (upload cfg client fname uid file fileSize true (s :: rest) false).result = some false ∧
    (upload cfg client fname uid file fileSize true (s :: rest) false).connects = 1 ∧
    (upload cfg client fname uid file fileSize true (s :: rest) false).attempts = 0 := by
  have hclean := attemptStep_clean cfg client fname uid file fileSize false s off
    (Or.inr hck) hh ho hoff hlen hcs hsend
  have hss := statusStep_some s true (build_header client fname fileSize uid)
    (file.drop off) 69 82 hresp
  simp [upload, uploadLoop, hclean, hss]

/-- C4 witnessed: empty file already fully held by the peer, `b"ER"` reply,
generous budget — still exactly one attempt and a failed outcome. -/
theorem server_rejection_terminal_witness :
    (upload ⟨1, 5⟩ [] [] [] [] 0 true [⟨true, true, some 0, true, some (69, 82)⟩]
        false).result = some false ∧
    (upload ⟨1, 5⟩ [] [] [] [] 0 true [⟨true, true, some 0, true, some (69, 82)⟩]
        false).connects = 1 ∧
    (upload ⟨1, 5⟩ [] [] [] [] 0 true [⟨true, true, some 0, true, some (69, 82)⟩]
        false).attempts = 0 :=
  server_rejection_terminal ⟨1, 5⟩ [] [] [] [] 0
    ⟨true, true, some 0, true, some (69, 82)⟩ [] 0 rfl rfl rfl (by decide) rfl
    (by decide) rfl rfl

/-- C8: when the attempt reaches the 2-byte status read and gets bytes
`(x, y)` — `b"OK"`, `b"ER"` or anything else — `upload()` returns a
terminal verdict with the connection still open: only the fault path
closes it, so the caller must disconnect separately. -/
theorem terminal_status_leaves_connection_open (cfg : ClientConfig)
    (client fname uid file : List Nat) (fileSize : Nat) (s : Script) (rest : List Script)
    (conn : Bool) (a off x y : Nat)
    (hc : conn = true ∨ s.connectOk = true) (hh : s.headerOk = true)
    (ho : s.offsetReply = some off) (hoff : off ≤ fileSize) (hlen : file.length = fileSize)
    (hcs : 0 < cfg.chunk_size) (hsend : s.sendOk = true) (hresp : s.response = some (x, y)) :
    (uploadLoop cfg client fname uid file fileSize (s :: rest) conn a).result =
      some (decide (x = 79 ∧ y = 75)) ∧
    (uploadLoop cfg client fname uid file fileSize (s :: rest) conn a).conn = true ∧
    (uploadLoop cfg client fname uid file fileSize (s :: rest) conn a).attempts = a := by
  have hclean := attemptStep_clean cfg client fname uid file fileSize conn s off
    hc hh ho hoff hlen hcs hsend
  have hss := statusStep_some s (!conn) (build_header client fname fileSize uid)
    (file.drop off) x y hresp
  simp [uploadLoop, hclean, hss]

/-- C8 witnessed: an unrecognized status pair (88, 99) — terminal failure,
connection left open. -/
theorem terminal_status_leaves_connection_open_witness :
    (uploadLoop ⟨1, 5⟩ [] [] [] [] 0 [⟨true, true, some 0, true, some (88, 99)⟩]
        false 0).result = some (decide (88 = 79 ∧ 99 = 75)) ∧
    (uploadLoop ⟨1, 5⟩ [] [] [] [] 0 [⟨true, true, some 0, true, some (88, 99)⟩]
        false 0).conn = true ∧
    (uploadLoop ⟨1, 5⟩ [] [] [] [] 0 [⟨true, true, some 0, true, some (88, 99)⟩]
        false 0).attempts = 0 :=
  terminal_status_leaves_connection_open ⟨1, 5⟩ [] [] [] [] 0
    ⟨true, true, some 0, true, some (88, 99)⟩ [] false 0 0 88 99 (Or.inr rfl) rfl rfl
    (by decide) rfl (by decide) rfl rfl

/-- C6: the retry budget. With `max_retries = m > 0` and every attempt
faulting, the loop terminates: once the attempt counter reaches `m` the
session has closed the connection and `upload()` returns a failed
(attempts-exhausted) outcome. With `m = 0` the budget never stops the
loop: all-faulting scripts of any length leave it still running. And every
retry reuses the same `fileSize` and `uid` fixed before the loop: every
header ever written is the one `build_header` of those values. -/
theorem retry_budget_termination_and_header_reuse (cfg : ClientConfig)
    (client fname uid file : List Nat) (fileSize : Nat) (conn0 : Bool) :
    (cfg.max_retries ≠ 0 →
      ∀ scripts : List Script, cfg.max_retries ≤ scripts.length →
        (∀ s ∈ scripts, ∀ c : Bool,
          (attemptStep cfg client fname uid file fileSize c s).result = none) →
        (upload cfg client fname uid file fileSize true scripts conn0).result = some false ∧
        (upload cfg client fname uid file fileSize true scripts conn0).conn = false ∧
        (upload cfg client fname uid file fileSize true scripts conn0).attempts =
          cfg.max_retries) ∧
    (cfg.max_retries = 0 →
      ∀ scripts : List Script,
        (∀ s ∈ scripts, ∀ c : Bool,
          (attemptStep cfg client fname uid file fileSize c s).result = none) →
        (upload cfg client fname uid file fileSize true scripts conn0).result = none) ∧
    (∀ (scripts : List Script) (a : Nat) (conn : Bool),
      ∀ h ∈ (uploadLoop cfg client fname uid file fileSize scripts conn a).headers,
        h = build_header client fname fileSize uid) := by
  refine ⟨?_, ?_, ?_⟩
  · intro hm scripts hlen hall
    have hrun := uploadLoop_exhaust cfg client fname uid file fileSize hm scripts conn0 0
      (by omega) (by omega) hall
    simpa [upload] using hrun
  · intro hm scripts hall
    have hrun := uploadLoop_unlimited cfg client fname uid file fileSize hm scripts conn0 0 hall
    simpa [upload] using hrun
  · intro scripts a conn h hh
    exact uploadLoop_headers cfg client fname uid file fileSize scripts conn a h hh

/-- C6 witnessed: budget 2 with two always-faulting attempts terminates at
attempt counter 2 with a failed outcome and a closed connection; budget 0
with a faulting attempt is still looping; the single header written by a
faulting attempt is the loop-invariant header. -/
theorem retry_budget_termination_and_header_reuse_witness :
    ((upload ⟨1, 2⟩ [] [] [] [] 0 true
        [⟨true, false, none, true, none⟩, ⟨true, false, none, true, none⟩]
        false).result = some false ∧
     (upload ⟨1, 2⟩ [] [] [] [] 0 true
        [⟨true, false, none, true, none⟩, ⟨true, false, none, true, none⟩]
        false).conn = false ∧
     (upload ⟨1, 2⟩ [] [] [] [] 0 true
        [⟨true, false, none, true, none⟩, ⟨true, false, none, true, none⟩]
        false).attempts = 2) ∧
    (upload ⟨1, 0⟩ [] [] [] [] 0 true [⟨true, false, none, true, none⟩] false).result = none ∧
    build_header [] [] 0 [] = build_header [] [] 0 [] := by
  refine ⟨?_, ?_, ?_⟩
  · exact (retry_budget_termination_and_header_reuse ⟨1, 2⟩ [] [] [] [] 0 false).1
      (by decide) _ (by decide) (by decide)
  · exact (retry_budget_termination_and_header_reuse ⟨1, 0⟩ [] [] [] [] 0 false).2.1
      rfl _ (by decide)
  · exact (retry_budget_termination_and_header_reuse ⟨1, 2⟩ [] [] [] [] 0 false).2.2
      [⟨true, false, none, true, none⟩] 0 false (build_header [] [] 0 []) (by decide)
